import Mathlib

/-!
Shallow embedding of the Green Drake Horizon integration
(`homeassistant/components/green_drake`): the HTTP API client's data model
and parsing (`api_client.py`), the update coordinator's refresh cycle
(`coordinator.py`), and the card-discovery diff of the sensor platform
(`sensor.py`).

Python machine values are modelled as follows: `int` as `ℤ`, `float` as `ℚ`
(exact arithmetic), `str` as `String`, `datetime.timedelta` as its total
number of seconds (`ℤ`), `dict[str, V]` as an insertion-ordered association
list `List (String × V)` with Python assignment semantics (update in place
when the key is present, append otherwise).  HTTP transport and JSON
decoding are modelled by a `Device` record giving, for each request the
client can make, either the decoded response shape or a `FetchError`.
-/

set_option autoImplicit false

namespace GreenDrake

/-- Comparison operator `operator.ge`, passed as the `comparator` of every
`Threshold` built by the client (`api_client.py`). -/
def operator_ge (a b : ℤ) : Bool := decide (a ≥ b)

/-- A class representing a threshold of some value (`api_client.py`,
`Threshold`). -/
structure Threshold (T : Type) where
  comparator : T → T → Bool
  error : T
  value : T
  warning : T

/-- Determine if this threshold has reached the "error" severity. -/
def Threshold.in_error {T : Type} (t : Threshold T) : Bool :=
  t.comparator t.value t.error

/-- Determine if this threshold has reached the "warning" severity. -/
def Threshold.in_warning {T : Type} (t : Threshold T) : Bool :=
  t.comparator t.value t.warning

/-- Represents a relative threshold of some value (`api_client.py`,
`RelativeThreshold`), instantiated at `T = int`; the Python float
division `relative_warning / 100_000` is modelled exactly in `ℚ`. -/
structure RelativeThreshold where
  max : ℤ
  relative_error : ℤ
  relative_warning : ℤ
  value : ℤ

/-- Calculate the absolute error value based on the relative setting. -/
def RelativeThreshold.error (t : RelativeThreshold) : ℚ :=
  (t.max : ℚ) * ((t.relative_error : ℚ) / 100000)

/-- Calculate the absolute warning value based on the relative setting. -/
def RelativeThreshold.warning (t : RelativeThreshold) : ℚ :=
  (t.max : ℚ) * ((t.relative_warning : ℚ) / 100000)

/-- Determine if the value has entered the "error" region. -/
def RelativeThreshold.in_error (t : RelativeThreshold) : Bool :=
  decide ((t.value : ℚ) ≥ t.error)

/-- Determine if the value has entered the "warning" region. -/
def RelativeThreshold.in_warning (t : RelativeThreshold) : Bool :=
  decide ((t.value : ℚ) ≥ t.warning)

/-- A value and the range that value is allowed to be in (`api_client.py`,
`Range`). -/
structure Range (T : Type) where
  min : T
  value : T
  max : T

/-- Data model for attached mains power source (`api_client.py`,
`PowerInput`); voltage in millivolt. -/
structure PowerInput where
  voltage : ℤ

/-- Data model for an attached battery (`api_client.py`, `Battery`). -/
structure Battery where
  charge_current : ℤ
  charge_max : ℤ
  charge_min : ℤ
  chemistry : String
  discharge_current : ℤ
  voltage : ℤ

/-- Data model for overall system information (`api_client.py`,
`SystemInfo`); `uptime` is the timedelta's total number of seconds. -/
structure SystemInfo where
  battery : Battery
  current : ℤ
  energy_consumption : ℚ
  firmware_version : String
  inputs : List PowerInput
  mac_addr : String
  power : Threshold ℤ
  temperature : Threshold ℤ
  unique_id : String
  uptime : ℤ

/-- Data model for output power stages (`api_client.py`,
`OutputPowerStage`). -/
structure OutputPowerStage where
  current : Range ℤ
  power : RelativeThreshold
  temperature : Threshold ℤ
  voltage : Range ℤ

/-- Information about an installed output card (`api_client.py`,
`OutputCardInfo`).  The source annotates `status` as `OutputCardStatus`,
but `get_card_info` assigns the raw JSON string unconverted, so the field
is modelled as `String`. -/
structure OutputCardInfo where
  label : String
  model : String
  power_stages : List OutputPowerStage
  priority : ℤ
  status : String

/-- Typed fetch failure of the device client (spec §4.1): transport
failure or malformed response. -/
inductive FetchError where
  | Transport
  | Malformed

/-- Decoded JSON shape of the `Bat` sub-object of `GET /api`
(`api_client.py`, `get_system_info`). -/
structure BatteryJson where
  CCharge : ℤ
  SocMax : ℤ
  SocMin : ℤ
  chemistry : String
  CDischarge : ℤ
  V : ℤ

/-- Decoded JSON shape of the `E` sub-object of `GET /api`. -/
structure EnergyJson where
  kWh : ℚ
  Wh : ℚ

/-- Decoded JSON shape of the `Dev` sub-object of `GET /api`. -/
structure DeviceJson where
  FwVer : String
  Mac : String
  Id : String

/-- Decoded JSON shape of the `up_time` sub-object of `GET /api`. -/
structure UptimeJson where
  days : ℤ
  seconds : ℤ

/-- Decoded JSON shape of the `GET /api` response body, with exactly the
fields `get_system_info` reads. -/
structure SystemJson where
  Bat : BatteryJson
  E : EnergyJson
  Dev : DeviceJson
  up_time : UptimeJson
  C : ℤ
  V1 : ℤ
  V2 : ℤ
  P : ℤ
  PW : ℤ
  PE : ℤ
  T : ℤ
  TW : ℤ
  TE : ℤ

/-- Decoded JSON shape of one element of the `Pwr` array of
`GET /api/card/N`. -/
structure PowerStageJson where
  C : ℤ
  CMax : ℤ
  PMax : ℤ
  PEPct : ℤ
  PWPct : ℤ
  P : ℤ
  T : ℤ
  TW : ℤ
  TE : ℤ
  VMin : ℤ
  V : ℤ
  VMax : ℤ

/-- Decoded JSON shape of the `GET /api/card/N` response body.  When
`type = "empty"` the remaining fields are irrelevant (the code returns
before reading them). -/
structure CardJson where
  type : String
  label : String
  Pwr : List PowerStageJson
  Pri : ℤ
  status : String

/-- A device as seen through HTTP transport plus JSON decoding: what each
request made by `ApiClient` yields, either a decoded body or a
`FetchError` (connection/timeout failures and undecodable bodies both
surface as raised exceptions in the source). -/
structure Device where
  system : Except FetchError SystemJson
  card : ℕ → Except FetchError CardJson

/-- Parsing part of `ApiClient.get_system_info` (`api_client.py`): builds a
`SystemInfo` from the decoded `GET /api` body; `timedelta(days, seconds)`
is its total seconds `days * 86400 + seconds`. -/
def parse_system_info (data : SystemJson) : SystemInfo :=
  { battery :=
      { charge_current := data.Bat.CCharge
        charge_max := data.Bat.SocMax
        charge_min := data.Bat.SocMin
        chemistry := data.Bat.chemistry
        discharge_current := data.Bat.CDischarge
        voltage := data.Bat.V }
    current := data.C
    energy_consumption := data.E.kWh + data.E.Wh / 1000
    inputs := [⟨data.V1⟩, ⟨data.V2⟩]
    firmware_version := data.Dev.FwVer
    mac_addr := data.Dev.Mac
    power :=
      { comparator := operator_ge
        error := data.PE
        value := data.P
        warning := data.PW }
    temperature :=
      { comparator := operator_ge
        error := data.TE
        value := data.T
        warning := data.TW }
    unique_id := data.Dev.Id
    uptime := data.up_time.days * 86400 + data.up_time.seconds }

/-- `ApiClient.get_system_info`: one `GET /api` request, then parsing. -/
def get_system_info (dev : Device) : Except FetchError SystemInfo :=
  dev.system.map parse_system_info

/-- Parsing part of one element of the `Pwr` loop in
`ApiClient.get_card_info`. -/
def parse_power_stage (value : PowerStageJson) : OutputPowerStage :=
  { current := { min := 0, value := value.C, max := value.CMax }
    power :=
      { max := value.PMax
        relative_error := value.PEPct
        relative_warning := value.PWPct
        value := value.P }
    temperature :=
      { comparator := operator_ge
        error := value.TE
        value := value.T
        warning := value.TW }
    voltage := { min := value.VMin, value := value.V, max := value.VMax } }

/-- Parsing part of `ApiClient.get_card_info` (`api_client.py`): yields
`none` for the device's explicit `"empty"` marker, otherwise an
`OutputCardInfo` whose `model` is the literal `"TODO"`. -/
def parse_card_info (data : CardJson) : Option OutputCardInfo :=
  if data.type = "empty" then none
  else
    some
      { label := data.label
        model := "TODO"
        power_stages := data.Pwr.map parse_power_stage
        priority := data.Pri
        status := data.status }

/-- `ApiClient.get_card_info card_num`: one `GET /api/card/card_num`
request, then parsing. -/
def get_card_info (dev : Device) (card_num : ℕ) :
    Except FetchError (Option OutputCardInfo) :=
  (dev.card card_num).map parse_card_info

/-- Whether a fetch outcome is a success (no raised `FetchError`). -/
def fetch_ok {α : Type} : Except FetchError α → Bool
  | .ok _ => true
  | .error _ => false

/-- Python `dict` assignment `m[k] = v` on an insertion-ordered
association list: update in place when `k` is present, append otherwise. -/
def dictInsert (m : List (String × OutputCardInfo)) (k : String)
    (v : OutputCardInfo) : List (String × OutputCardInfo) :=
  match m with
  | [] => [(k, v)]
  | (k₀, v₀) :: rest =>
    if k₀ = k then (k, v) :: rest else (k₀, v₀) :: dictInsert rest k v

/-- Python `dict` lookup on the association-list model. -/
def mapLookup (lab : String) : List (String × OutputCardInfo) → Option OutputCardInfo
  | [] => none
  | (k, v) :: rest => if lab = k then some v else mapLookup lab rest

/-- Body of the `card_map` loop of `_async_update_data` (`coordinator.py`):
`continue` on a `None` slot, otherwise `card_map[card.label] = card`. -/
def insertCard (card_map : List (String × OutputCardInfo)) :
    Option OutputCardInfo → List (String × OutputCardInfo)
  | none => card_map
  | some c => dictInsert card_map c.label c

/-- The keys of the association-list dict, in insertion order. -/
def mapKeys (m : List (String × OutputCardInfo)) : List String :=
  m.map Prod.fst

/-- The `card_map` loop of `_async_update_data` (`coordinator.py`): skip
`None` slots, assign `card_map[card.label] = card` in slot order. -/
def buildCardMap (cards : List (Option OutputCardInfo)) :
    List (String × OutputCardInfo) :=
  cards.foldl insertCard []

/-- Class for Horizon data (`coordinator.py`, `HorizonData`): the snapshot
published by the coordinator. -/
structure HorizonData where
  battery : Battery
  cards : List (String × OutputCardInfo)
  energy_consumption : ℚ
  current : ℤ
  power : Threshold ℤ
  power_inputs : List PowerInput
  temperature : Threshold ℤ
  uptime : ℤ

/-- One call issued by the client against the device, for tracing the
requests a refresh cycle makes. -/
inductive ApiCall where
  | system_info
  | card_info (slot : ℕ)
  deriving DecidableEq

/-- The card sweep of `_async_update_data`:
`[await self.api_client.get_card_info(i) for i in range(4)]`, issued
sequentially in list order, aborting at the first raised `FetchError`;
also returns the calls actually made. -/
def sweep_cards (dev : Device) :
    List ℕ → Except FetchError (List (Option OutputCardInfo)) × List ApiCall
  | [] => (.ok [], [])
  | i :: rest =>
    match get_card_info dev i with
    | .error e => (.error e, [.card_info i])
    | .ok c =>
      match sweep_cards dev rest with
      | (.ok cs, t) => (.ok (c :: cs), .card_info i :: t)
      | (.error e, t) => (.error e, .card_info i :: t)

/-- `HorizonDataUpdateCoordinator._async_update_data` (`coordinator.py`),
instrumented with the list of device calls it issues: fetch system info,
sweep card slots `0..3`, build `card_map`, assemble the `HorizonData`;
any raised `FetchError` aborts the cycle. -/
def _async_update_data_traced (dev : Device) :
    Except FetchError HorizonData × List ApiCall :=
  match get_system_info dev with
  | .error e => (.error e, [.system_info])
  | .ok data =>
    match sweep_cards dev (List.range 4) with
    | (.error e, t) => (.error e, .system_info :: t)
    | (.ok cards, t) =>
      (.ok
        { battery := data.battery
          cards := buildCardMap cards
          energy_consumption := data.energy_consumption
          current := data.current
          power := data.power
          power_inputs := data.inputs
          temperature := data.temperature
          uptime := data.uptime },
       .system_info :: t)

/-- `HorizonDataUpdateCoordinator._async_update_data`: outcome of one
refresh cycle. -/
def _async_update_data (dev : Device) : Except FetchError HorizonData :=
  (_async_update_data_traced dev).1

/-- The device calls issued by one refresh cycle. -/
def update_trace (dev : Device) : List ApiCall :=
  (_async_update_data_traced dev).2

/-- Modelled from the spec: the refresh-completion behavior of the host
framework's `DataUpdateCoordinator` (`homeassistant.helpers.update_coordinator`,
not under `src/`) — "On successful completion ... publishes the new snapshot
as `current`"; "On failure: stays on the previous `current` snapshot". -/
def coordinator_step (current : Option HorizonData) (dev : Device) :
    Option HorizonData :=
  match _async_update_data dev with
  | .ok d => some d
  | .error _ => current

/-- Modelled from the spec: the coordinator's two states, "Idle (no
refresh in flight)" and "Refreshing (one refresh in flight)" (spec §4.2;
the state machine lives in the host framework, not under `src/`). -/
inductive RefreshState where
  | Idle
  | Refreshing
  deriving DecidableEq

/-- Modelled from the spec: the observable trigger state of the
coordinator — its Idle/Refreshing state, how many device round-trips have
been started, and the id of the refresh cycle whose outcome a caller
awaiting now will receive. -/
structure TriggerModel where
  state : RefreshState
  round_trips : ℕ
  cycle_id : ℕ
  deriving DecidableEq

/-- Modelled from the spec: "`trigger_refresh()` from Idle → Refreshing;
if already Refreshing, the call is a no-op that returns the in-flight
result when it completes (coalescing — never starts two overlapping device
round-trips)."  Returns the new state and the id of the cycle whose
outcome the caller receives. -/
def trigger_refresh (m : TriggerModel) : TriggerModel × ℕ :=
  match m.state with
  | .Idle =>
    ({ state := .Refreshing
       round_trips := m.round_trips + 1
       cycle_id := m.cycle_id + 1 },
     m.cycle_id + 1)
  | .Refreshing => (m, m.cycle_id)

/-- Modelled from the spec: completion of the in-flight refresh
transitions the coordinator back to Idle (spec §4.2). -/
def complete_refresh (m : TriggerModel) : TriggerModel :=
  { m with state := .Idle }

/-- Set difference `rcvd_card_labels - current_cards` of
`_async_card_listener` (`sensor.py`): the labels announced this
invocation. -/
def new_labels (current_cards rcvd_card_labels : Finset String) :
    Finset String :=
  rcvd_card_labels \ current_cards

/-- State effect of one invocation of `_async_card_listener`
(`sensor.py`): for every label in `new_labels`, entities are created and
`current_cards.add(card.label)` is executed, so the announced set becomes
`current_cards ∪ new_labels`. -/
def _async_card_listener (current_cards rcvd_card_labels : Finset String) :
    Finset String :=
  current_cards ∪ new_labels current_cards rcvd_card_labels

/-- The announced-label set after a sequence of listener invocations, one
per received snapshot's card-label set. -/
def run_listener (current_cards : Finset String)
    (snaps : List (Finset String)) : Finset String :=
  snaps.foldl _async_card_listener current_cards

/-- The card installed in the highest-numbered slot of `cards` whose label
is `lab`, if any (spec-side description for the duplicate-label claim). -/
def lastLabeled (lab : String) :
    List (Option OutputCardInfo) → Option OutputCardInfo
  | [] => none
  | c :: rest =>
    match lastLabeled lab rest with
    | some c₂ => some c₂
    | none =>
      match c with
      | some card => if card.label = lab then some card else none
      | none => none

/-- Sample decoded `GET /api` body. -/
def sampleSystemJson : SystemJson :=
  { Bat :=
      { CCharge := 1200
        SocMax := 95000
        SocMin := 20000
        chemistry := "LiFePO4"
        CDischarge := 0
        V := 13200 }
    E := { kWh := 12, Wh := 500 }
    Dev := { FwVer := "1.0", Mac := "AA:BB", Id := "horizon-1" }
    up_time := { days := 2, seconds := 3661 }
    C := 1500
    V1 := 230000
    V2 := 231000
    P := 45000
    PW := 50000
    PE := 60000
    T := 35000
    TW := 60000
    TE := 70000 }

/-- The same body with a different firmware version, MAC address and
device id, all other fields identical. -/
def sampleSystemJson2 : SystemJson :=
  { sampleSystemJson with
    Dev := { FwVer := "2.0", Mac := "CC:DD", Id := "horizon-2" } }

/-- Sample decoded `GET /api/card/N` body carrying the explicit `"empty"`
marker. -/
def emptyCardJson : CardJson :=
  { type := "empty", label := "", Pwr := [], Pri := 0, status := "" }

/-- Sample decoded `GET /api/card/N` body for an installed card with no
power stages. -/
def sampleCardJson : CardJson :=
  { type := "output", label := "card-A", Pwr := [], Pri := 1, status := "OK!" }

/-- The `OutputCardInfo` that `parse_card_info` produces from
`sampleCardJson`. -/
def sampleParsedCard : OutputCardInfo :=
  { label := "card-A"
    model := "TODO"
    power_stages := []
    priority := 1
    status := "OK!" }

/-- A card labelled "A" with priority 1. -/
def cardA1 : OutputCardInfo :=
  { label := "A", model := "TODO", power_stages := [], priority := 1, status := "OK!" }

/-- A card labelled "A" with priority 2. -/
def cardA2 : OutputCardInfo :=
  { label := "A", model := "TODO", power_stages := [], priority := 2, status := "OK!" }

/-- A device whose every request succeeds; all card slots are empty. -/
def okDevice : Device :=
  { system := .ok sampleSystemJson, card := fun _ => .ok emptyCardJson }

/-- Like `okDevice` but reporting `sampleSystemJson2`. -/
def okDevice2 : Device :=
  { system := .ok sampleSystemJson2, card := fun _ => .ok emptyCardJson }

/-- A device whose system-info request fails with a transport error. -/
def errDevice : Device :=
  { system := .error .Transport, card := fun _ => .ok emptyCardJson }

/-- A device whose system-info request succeeds but whose card slot 2
fails with a transport error. -/
def cardErrDevice : Device :=
  { system := .ok sampleSystemJson
    card := fun i => if i = 2 then .error .Transport else .ok emptyCardJson }

/-- The `SystemInfo` parsed from `sampleSystemJson`. -/
def sampleSystemInfo : SystemInfo := parse_system_info sampleSystemJson

/-- The snapshot a refresh against `okDevice` assembles. -/
def sampleHorizonData : HorizonData :=
  { battery := sampleSystemInfo.battery
    cards := []
    energy_consumption := sampleSystemInfo.energy_consumption
    current := sampleSystemInfo.current
    power := sampleSystemInfo.power
    power_inputs := sampleSystemInfo.inputs
    temperature := sampleSystemInfo.temperature
    uptime := sampleSystemInfo.uptime }

/-- C5: for every `RelativeThreshold` with integer fields, `in_warning()`
returns true if and only if `value ≥ max * relative_warning / 100000`; in
particular with `max = 48000` and `relative_warning = 90000` it is true at
`value = 44000` and false at `value = 43000`. -/
theorem relative_threshold_in_warning_iff :
    (∀ m re rw v : ℤ,
      (RelativeThreshold.mk m re rw v).in_warning = true ↔
        (v : ℚ) ≥ (m : ℚ) * (rw : ℚ) / 100000) ∧
    (RelativeThreshold.mk 48000 95000 90000 44000).in_warning = true ∧
    (RelativeThreshold.mk 48000 95000 90000 43000).in_warning = false := by
  refine ⟨fun m re rw v => ?_,
    by norm_num [RelativeThreshold.in_warning, RelativeThreshold.warning],
    by norm_num [RelativeThreshold.in_warning, RelativeThreshold.warning]⟩
  simp [RelativeThreshold.in_warning, RelativeThreshold.warning, mul_div_assoc]

/-- C8: uptime parsing converts the device's `{days, seconds}` pair into a
duration of `days * 86400 + seconds` seconds; for `{days := 2,
seconds := 3661}` the parsed `SystemInfo.uptime` is 176461 seconds. -/
theorem uptime_parsing (data : SystemJson) :
    (parse_system_info data).uptime =
      data.up_time.days * 86400 + data.up_time.seconds ∧
    (data.up_time.days = 2 → data.up_time.seconds = 3661 →
      (parse_system_info data).uptime = 176461) := by
  have h1 : (parse_system_info data).uptime =
      data.up_time.days * 86400 + data.up_time.seconds := rfl
  refine ⟨h1, fun hd hs => ?_⟩
  rw [h1, hd, hs]
  norm_num

/-- Witness for C8 at the concrete input `{days := 2, seconds := 3661}`. -/
theorem uptime_parsing_witness :
    (parse_system_info sampleSystemJson).uptime = 176461 :=
  (uptime_parsing sampleSystemJson).2 rfl rfl

/-- C10: every successful `fetch_card_info` call that returns a card
yields an `OutputCardInfo` whose `model` is the literal string "TODO". -/
theorem card_model_todo (data : CardJson) (c : OutputCardInfo)
    (h : parse_card_info data = some c) : c.model = "TODO" := by
  unfold parse_card_info at h
  split at h
  · exact Option.noConfusion h
  · have h2 := Option.some.inj h
    subst h2
    rfl

/-- Witness for C10 on a concrete non-empty card response. -/
theorem card_model_todo_witness : sampleParsedCard.model = "TODO" :=
  card_model_todo sampleCardJson sampleParsedCard rfl

/-- Looking a key up after a dict assignment: the assigned value for the
assigned key, the previous content for every other key. -/
theorem mapLookup_dictInsert (m : List (String × OutputCardInfo))
    (k : String) (v : OutputCardInfo) (lab : String) :
    mapLookup lab (dictInsert m k v) =
      if lab = k then some v else mapLookup lab m := by
  induction m with
  | nil => rfl
  | cons hd rest ih =>
    obtain ⟨k₀, v₀⟩ := hd
    by_cases hk : k₀ = k
    · subst hk
      by_cases hl : lab = k₀ <;> simp [dictInsert, mapLookup, hl]
    · by_cases hl : lab = k₀
      · subst hl
        simp [dictInsert, hk, mapLookup]
      · simp [dictInsert, hk, mapLookup, hl, ih]

/-- Every entry of a dict after an assignment was either already present
or is the assigned pair. -/
theorem mem_dictInsert (m : List (String × OutputCardInfo))
    (k lab : String) (v c : OutputCardInfo)
    (h : (lab, c) ∈ dictInsert m k v) :
    (lab, c) ∈ m ∨ (lab = k ∧ c = v) := by
  induction m with
  | nil =>
    simp [dictInsert] at h
    exact Or.inr h
  | cons hd rest ih =>
    obtain ⟨k₀, v₀⟩ := hd
    by_cases hk : k₀ = k
    · subst hk
      simp [dictInsert] at h
      rcases h with h | h
      · exact Or.inr h
      · exact Or.inl (List.mem_cons_of_mem _ h)
    · simp only [dictInsert, if_neg hk, List.mem_cons] at h
      rcases h with h | h
      · exact Or.inl (List.mem_cons.mpr (Or.inl h))
      · rcases ih h with h2 | h2
        · exact Or.inl (List.mem_cons_of_mem _ h2)
        · exact Or.inr h2

/-- Keys of a dict after an assignment: unchanged when the key was
present, appended otherwise. -/
theorem mapKeys_dictInsert (m : List (String × OutputCardInfo))
    (k : String) (v : OutputCardInfo) :
    mapKeys (dictInsert m k v) =
      if k ∈ mapKeys m then mapKeys m else mapKeys m ++ [k] := by
  induction m with
  | nil => rfl
  | cons hd rest ih =>
    obtain ⟨k₀, v₀⟩ := hd
    by_cases hk : k₀ = k
    · subst hk
      simp [dictInsert, mapKeys]
    · have hk2 : ¬ k = k₀ := fun he => hk he.symm
      simp only [mapKeys, dictInsert, if_neg hk, List.map_cons, List.mem_cons,
        hk2, false_or]
      have ih2 : List.map Prod.fst (dictInsert rest k v) =
          if k ∈ List.map Prod.fst rest then List.map Prod.fst rest
          else List.map Prod.fst rest ++ [k] := ih
      by_cases hmem : k ∈ List.map Prod.fst rest
      · rw [if_pos hmem, ih2, if_pos hmem]
      · rw [if_neg hmem, ih2, if_neg hmem]
        rfl

/-- Dict assignment preserves distinctness of the keys. -/
theorem nodup_keys_dictInsert (m : List (String × OutputCardInfo))
    (k : String) (v : OutputCardInfo) (h : (mapKeys m).Nodup) :
    (mapKeys (dictInsert m k v)).Nodup := by
  rw [mapKeys_dictInsert]
  split
  · exact h
  · next hk => simp [List.nodup_append, h, hk]

/-- Looking up a label in the folded card map yields the latest card with
that label, falling back to the accumulator. -/
theorem mapLookup_foldl_insertCard (cards : List (Option OutputCardInfo)) :
    ∀ (acc : List (String × OutputCardInfo)) (lab : String),
    mapLookup lab (cards.foldl insertCard acc) =
      (lastLabeled lab cards).elim (mapLookup lab acc) some := by
  induction cards with
  | nil => intro acc lab; rfl
  | cons c rest ih =>
    intro acc lab
    rw [List.foldl_cons, ih]
    cases hrest : lastLabeled lab rest with
    | some c₂ => simp [lastLabeled, hrest]
    | none =>
      cases c with
      | none => simp [lastLabeled, hrest, insertCard]
      | some card =>
        simp only [lastLabeled, hrest, insertCard, Option.elim]
        rw [mapLookup_dictInsert]
        by_cases hl : card.label = lab
        · simp [hl]
        · have hl2 : ¬ lab = card.label := fun he => hl he.symm
          simp [hl, hl2]

/-- Every entry of the folded card map comes from the accumulator or from
a card actually present in the slot list, keyed by its own label. -/
theorem mem_foldl_insertCard (cards : List (Option OutputCardInfo)) :
    ∀ (acc : List (String × OutputCardInfo)) (lab : String)
      (c : OutputCardInfo),
    (lab, c) ∈ cards.foldl insertCard acc →
      (lab, c) ∈ acc ∨ (some c ∈ cards ∧ c.label = lab) := by
  induction cards with
  | nil => intro acc lab c h; exact Or.inl h
  | cons c₀ rest ih =>
    intro acc lab c h
    rw [List.foldl_cons] at h
    rcases ih _ lab c h with h2 | h2
    · cases c₀ with
      | none => exact Or.inl h2
      | some card =>
        rcases mem_dictInsert acc card.label lab card c h2 with h3 | h3
        · exact Or.inl h3
        · obtain ⟨h31, h32⟩ := h3
          subst h32
          exact Or.inr ⟨List.mem_cons_self _ _, h31.symm⟩
    · exact Or.inr ⟨List.mem_cons_of_mem _ h2.1, h2.2⟩

/-- The folded card map keeps its keys distinct. -/
theorem nodup_keys_foldl_insertCard (cards : List (Option OutputCardInfo)) :
    ∀ acc : List (String × OutputCardInfo),
    (mapKeys acc).Nodup → (mapKeys (cards.foldl insertCard acc)).Nodup := by
  induction cards with
  | nil => intro acc h; exact h
  | cons c rest ih =>
    intro acc h
    rw [List.foldl_cons]
    apply ih
    cases c with
    | none => exact h
    | some card => exact nodup_keys_dictInsert _ _ _ h

/-- C9: when several slots in the same sweep carry cards with the same
label, the assembled map holds exactly one entry for that label, namely
the card from the highest-numbered such slot; every other label is looked
up the same way, and no error is possible (the assembly is total). -/
theorem duplicate_labels_last_wins (cards : List (Option OutputCardInfo))
    (lab : String) :
    mapLookup lab (buildCardMap cards) = lastLabeled lab cards ∧
    (mapKeys (buildCardMap cards)).Nodup := by
  constructor
  · rw [buildCardMap, mapLookup_foldl_insertCard]
    cases lastLabeled lab cards <;> rfl
  · exact nodup_keys_foldl_insertCard cards [] (by simp [mapKeys])

/-- Witness for C9: two cards labelled "A" in slots 0 and 2; the map holds
the slot-2 card. -/
theorem duplicate_labels_last_wins_witness :
    mapLookup "A" (buildCardMap [some cardA1, none, some cardA2]) =
      lastLabeled "A" [some cardA1, none, some cardA2] ∧
    (mapKeys (buildCardMap [some cardA1, none, some cardA2])).Nodup :=
  duplicate_labels_last_wins [some cardA1, none, some cardA2] "A"

/-- C6: a card slot carrying the device's explicit "empty" marker parses
to `None` (a valid non-error outcome), and the coordinator omits that slot
from the assembled cards map entirely: skipping the `None` leaves the map
unchanged, and every entry of the map is an actually returned card keyed
by its own label (so no null entry can occur). -/
theorem empty_slot_omitted (data : CardJson)
    (xs ys cards : List (Option OutputCardInfo)) (lab : String)
    (c : OutputCardInfo) (h : data.type = "empty") :
    parse_card_info data = none ∧
    buildCardMap (xs ++ none :: ys) = buildCardMap (xs ++ ys) ∧
    ((lab, c) ∈ buildCardMap cards → some c ∈ cards ∧ c.label = lab) := by
  refine ⟨by simp [parse_card_info, h], ?_, ?_⟩
  · simp [buildCardMap, List.foldl_append, List.foldl_cons, insertCard]
  · intro hm
    rcases mem_foldl_insertCard cards [] lab c hm with h2 | h2
    · exact absurd h2 (List.not_mem_nil _)
    · exact h2

/-- Witness for C6 on the concrete "empty" response and a concrete map. -/
theorem empty_slot_omitted_witness :
    parse_card_info emptyCardJson = none ∧
    buildCardMap ([some sampleParsedCard] ++ none :: []) =
      buildCardMap ([some sampleParsedCard] ++ []) ∧
    (some sampleParsedCard ∈ [some sampleParsedCard] ∧
      sampleParsedCard.label = sampleParsedCard.label) := by
  have h := empty_slot_omitted emptyCardJson [some sampleParsedCard] []
    [some sampleParsedCard] sampleParsedCard.label sampleParsedCard rfl
  exact ⟨h.1, h.2.1, h.2.2 (List.mem_singleton.mpr rfl)⟩

/-- One listener invocation never removes labels from the announced set. -/
theorem subset_card_listener (a r : Finset String) :
    a ⊆ _async_card_listener a r :=
  Finset.subset_union_left

/-- A run of listener invocations never removes labels from the announced
set. -/
theorem subset_run_listener (snaps : List (Finset String)) :
    ∀ a : Finset String, a ⊆ run_listener a snaps := by
  induction snaps with
  | nil => intro a; exact Finset.Subset.refl a
  | cons s rest ih =>
    intro a
    exact (subset_card_listener a s).trans (ih (_async_card_listener a s))

/-- C4: the announced-label set only grows across listener invocations,
and once a label has been announced (it was in `new_labels` of some
invocation), no later invocation re-announces it — even if it is absent
from intermediate snapshots and reappears in a later one. -/
theorem card_discovery_monotone (a r s : Finset String)
    (snaps : List (Finset String)) (l : String)
    (h : l ∈ new_labels a r) :
    a ⊆ _async_card_listener a r ∧
    _async_card_listener a r ⊆ run_listener (_async_card_listener a r) snaps ∧
    l ∉ new_labels (run_listener (_async_card_listener a r) snaps) s := by
  refine ⟨subset_card_listener a r, subset_run_listener snaps _, ?_⟩
  have h1 : l ∈ _async_card_listener a r := by
    rw [_async_card_listener]
    exact Finset.mem_union_right a h
  have h2 : l ∈ run_listener (_async_card_listener a r) snaps :=
    subset_run_listener snaps _ h1
  simp [new_labels, h2]

/-- Witness for C4: "A" announced, then a snapshot without it, then one
with it again — it is not re-announced. -/
theorem card_discovery_monotone_witness :
    (∅ : Finset String) ⊆ _async_card_listener ∅ {"A"} ∧
    _async_card_listener ∅ {"A"} ⊆
      run_listener (_async_card_listener ∅ {"A"}) [∅, {"A"}] ∧
    "A" ∉ new_labels (run_listener (_async_card_listener ∅ {"A"}) [∅, {"A"}])
      {"A"} :=
  card_discovery_monotone ∅ {"A"} {"A"} [∅, {"A"}] "A"
    (by simp [new_labels])

/-- Mapping the success value of a fetch outcome does not change whether
it is a success. -/
theorem fetch_ok_map {α β : Type} (e : Except FetchError α) (f : α → β) :
    fetch_ok (e.map f) = fetch_ok e := by
  cases e <;> rfl

/-- The system-info fetch succeeds exactly when the underlying request
does. -/
theorem fetch_ok_system (dev : Device) :
    fetch_ok (get_system_info dev) = fetch_ok dev.system :=
  fetch_ok_map dev.system parse_system_info

/-- A card fetch succeeds exactly when the underlying request does. -/
theorem fetch_ok_card (dev : Device) (i : ℕ) :
    fetch_ok (get_card_info dev i) = fetch_ok (dev.card i) :=
  fetch_ok_map (dev.card i) parse_card_info

/-- After a successful slot fetch, the sweep's success and trace are those
of the remaining slots, prefixed with this slot's call. -/
theorem sweep_cards_cons_ok (dev : Device) (i : ℕ) (tl : List ℕ)
    (c : Option OutputCardInfo) (hget : get_card_info dev i = .ok c) :
    fetch_ok (sweep_cards dev (i :: tl)).1 =
      fetch_ok (sweep_cards dev tl).1 ∧
    (sweep_cards dev (i :: tl)).2 =
      ApiCall.card_info i :: (sweep_cards dev tl).2 := by
  rcases hsw : sweep_cards dev tl with ⟨r, t⟩
  cases r with
  | ok cs => simp [sweep_cards, hget, hsw, fetch_ok]
  | error e => simp [sweep_cards, hget, hsw, fetch_ok]

/-- The sweep succeeds exactly when every slot request in the list
succeeds. -/
theorem sweep_cards_ok_iff (dev : Device) :
    ∀ l : List ℕ,
    fetch_ok (sweep_cards dev l).1 = true ↔
      ∀ i ∈ l, fetch_ok (dev.card i) = true := by
  intro l
  induction l with
  | nil => simp [sweep_cards, fetch_ok]
  | cons i tl ih =>
    rw [List.forall_mem_cons]
    cases hget : get_card_info dev i with
    | error e =>
      have hio : fetch_ok (dev.card i) = false := by
        rw [← fetch_ok_card, hget]
        rfl
      have hsw1 : (sweep_cards dev (i :: tl)).1 = Except.error e := by
        simp [sweep_cards, hget]
      rw [hsw1]
      constructor
      · intro hx
        exact Bool.noConfusion hx
      · intro hx
        exact Bool.noConfusion (hx.1.symm.trans hio)
    | ok c =>
      have hio : fetch_ok (dev.card i) = true := by
        rw [← fetch_ok_card, hget]
        rfl
      rw [(sweep_cards_cons_ok dev i tl c hget).1, ih, hio]
      simp

/-- The sweep's trace covers an initial segment of the requested slots in
order, and all of them when the sweep succeeds. -/
theorem sweep_cards_trace (dev : Device) :
    ∀ l : List ℕ, ∃ slots rest2 : List ℕ,
      (sweep_cards dev l).2 = slots.map ApiCall.card_info ∧
      slots ++ rest2 = l ∧
      (fetch_ok (sweep_cards dev l).1 = true → rest2 = []) := by
  intro l
  induction l with
  | nil => exact ⟨[], [], rfl, rfl, fun _ => rfl⟩
  | cons i tl ih =>
    cases hget : get_card_info dev i with
    | error e =>
      refine ⟨[i], tl, ?_, rfl, fun hok => ?_⟩
      · simp [sweep_cards, hget]
      · exfalso
        simp [sweep_cards, hget, fetch_ok] at hok
    | ok c =>
      obtain ⟨slots, rest2, h1, h2, h3⟩ := ih
      obtain ⟨hc1, hc2⟩ := sweep_cards_cons_ok dev i tl c hget
      refine ⟨i :: slots, rest2, ?_, ?_, fun hok => ?_⟩
      · rw [hc2, h1]
        rfl
      · rw [List.cons_append, h2]
      · rw [hc1] at hok
        exact h3 hok

/-- A refresh cycle succeeds exactly when the system request and all four
card-slot requests succeed. -/
theorem update_ok_iff (dev : Device) :
    fetch_ok (_async_update_data dev) = true ↔
      (fetch_ok dev.system = true ∧
        ∀ i, i < 4 → fetch_ok (dev.card i) = true) := by
  cases hsys : get_system_info dev with
  | error e =>
    have hs : fetch_ok dev.system = false := by
      rw [← fetch_ok_system, hsys]
      rfl
    have hupdv : _async_update_data dev = Except.error e := by
      rw [_async_update_data]
      simp only [_async_update_data_traced, hsys]
    rw [hupdv]
    constructor
    · intro hx
      exact Bool.noConfusion hx
    · intro hx
      exact Bool.noConfusion (hx.1.symm.trans hs)
  | ok data =>
    have hs : fetch_ok dev.system = true := by
      rw [← fetch_ok_system, hsys]
      rfl
    have hupd : fetch_ok (_async_update_data dev) =
        fetch_ok (sweep_cards dev (List.range 4)).1 := by
      simp only [_async_update_data, _async_update_data_traced, hsys]
      rcases hsw : sweep_cards dev (List.range 4) with ⟨r, t⟩
      cases r <;> rfl
    rw [hupd, sweep_cards_ok_iff dev (List.range 4), hs]
    simp [List.mem_range]

/-- C1: a refresh cycle is atomic with respect to the published snapshot:
if the system-info fetch or any card-slot fetch fails, the current
snapshot is left unchanged (no partially-assembled snapshot is
published); if every fetch succeeds, the current snapshot is replaced by
the newly assembled one. -/
theorem refresh_atomic (current : Option HorizonData) (dev : Device) :
    ((fetch_ok dev.system = false ∨
        ∃ i, i < 4 ∧ fetch_ok (dev.card i) = false) →
      coordinator_step current dev = current) ∧
    ((fetch_ok dev.system = true ∧
        ∀ i, i < 4 → fetch_ok (dev.card i) = true) →
      ∃ d, _async_update_data dev = Except.ok d ∧
        coordinator_step current dev = some d) := by
  constructor
  · intro hfail
    have hko : ¬ (fetch_ok dev.system = true ∧
        ∀ i, i < 4 → fetch_ok (dev.card i) = true) := by
      rcases hfail with h | ⟨i, hi, h⟩
      · intro hc
        rw [hc.1] at h
        exact Bool.true_eq_false.mp h
      · intro hc
        rw [hc.2 i hi] at h
        exact Bool.true_eq_false.mp h
    have hne : ¬ fetch_ok (_async_update_data dev) = true :=
      fun hx => hko ((update_ok_iff dev).mp hx)
    cases hupd : _async_update_data dev with
    | ok d =>
      exact absurd (by rw [hupd]; rfl) hne
    | error e =>
      simp [coordinator_step, hupd]
  · intro hok
    have hx : fetch_ok (_async_update_data dev) = true :=
      (update_ok_iff dev).mpr hok
    cases hupd : _async_update_data dev with
    | error e =>
      rw [hupd] at hx
      exact absurd hx (by simp [fetch_ok])
    | ok d =>
      exact ⟨d, rfl, by simp [coordinator_step, hupd]⟩

/-- Witness for C1: a failing system fetch and a failing card-slot fetch
each leave the snapshot unchanged; an all-success cycle publishes the
newly assembled snapshot. -/
theorem refresh_atomic_witness :
    coordinator_step (some sampleHorizonData) errDevice =
      some sampleHorizonData ∧
    coordinator_step (some sampleHorizonData) cardErrDevice =
      some sampleHorizonData ∧
    (∃ d, _async_update_data okDevice = Except.ok d ∧
      coordinator_step none okDevice = some d) :=
  ⟨(refresh_atomic (some sampleHorizonData) errDevice).1 (Or.inl rfl),
   (refresh_atomic (some sampleHorizonData) cardErrDevice).1
     (Or.inr ⟨2, by norm_num, rfl⟩),
   (refresh_atomic none okDevice).2 ⟨rfl, fun i _ => rfl⟩⟩

/-- C2: two trigger_refresh calls with no completion between them start
exactly one device round-trip; the second call is a no-op and both
callers receive the outcome of the same in-flight cycle (identified by
its cycle id).  The Idle/Refreshing protocol is modelled from the spec
(the coordinator base class is not under src). -/
theorem trigger_refresh_coalesces (m : TriggerModel)
    (h : m.state = RefreshState.Idle) :
    (trigger_refresh (trigger_refresh m).1).1.round_trips =
      m.round_trips + 1 ∧
    (trigger_refresh (trigger_refresh m).1).2 = (trigger_refresh m).2 ∧
    (trigger_refresh (trigger_refresh m).1).1 = (trigger_refresh m).1 := by
  simp [trigger_refresh, h]

/-- Witness for C2 starting from a concrete Idle state. -/
theorem trigger_refresh_coalesces_witness :
    (trigger_refresh
        (trigger_refresh ⟨RefreshState.Idle, 0, 0⟩).1).1.round_trips =
      0 + 1 ∧
    (trigger_refresh (trigger_refresh ⟨RefreshState.Idle, 0, 0⟩).1).2 =
      (trigger_refresh ⟨RefreshState.Idle, 0, 0⟩).2 ∧
    (trigger_refresh (trigger_refresh ⟨RefreshState.Idle, 0, 0⟩).1).1 =
      (trigger_refresh ⟨RefreshState.Idle, 0, 0⟩).1 :=
  trigger_refresh_coalesces ⟨RefreshState.Idle, 0, 0⟩ rfl

/-- C3 counterexample: two devices whose system responses differ only in
firmware version, MAC address and unique id yield identical snapshots:
those three SystemInfo fields are not carried into `HorizonData`. -/
theorem snapshot_drops_identity_fields :
    (parse_system_info sampleSystemJson).firmware_version ≠
      (parse_system_info sampleSystemJson2).firmware_version ∧
    (parse_system_info sampleSystemJson).mac_addr ≠
      (parse_system_info sampleSystemJson2).mac_addr ∧
    (parse_system_info sampleSystemJson).unique_id ≠
      (parse_system_info sampleSystemJson2).unique_id ∧
    _async_update_data okDevice = _async_update_data okDevice2 :=
  ⟨by decide, by decide, by decide, rfl⟩

/-- C3 amended: for every successful refresh the snapshot aggregates the
SystemInfo fields battery, current, energy_consumption, inputs (as
`power_inputs`), power, temperature and uptime, together with the cards
map built from the sweep; the SystemInfo fields firmware_version, mac
address and unique_id are not part of the snapshot. -/
theorem snapshot_aggregates_fields (dev : Device) (data : SystemInfo)
    (d : HorizonData) (hs : get_system_info dev = Except.ok data)
    (hd : _async_update_data dev = Except.ok d) :
    d.battery = data.battery ∧ d.current = data.current ∧
    d.energy_consumption = data.energy_consumption ∧
    d.power = data.power ∧ d.power_inputs = data.inputs ∧
    d.temperature = data.temperature ∧ d.uptime = data.uptime ∧
    ∃ cards, (sweep_cards dev (List.range 4)).1 = Except.ok cards ∧
      d.cards = buildCardMap cards := by
  rcases hsw : sweep_cards dev (List.range 4) with ⟨r, t⟩
  cases r with
  | error e =>
    rw [_async_update_data] at hd
    simp only [_async_update_data_traced, hs, hsw] at hd
    exact Except.noConfusion hd
  | ok cards =>
    rw [_async_update_data] at hd
    simp only [_async_update_data_traced, hs, hsw] at hd
    injection hd with hd2
    subst hd2
    exact ⟨rfl, rfl, rfl, rfl, rfl, rfl, rfl, cards, by simp [hsw], rfl⟩

/-- Witness for C3's amended statement on a fully succeeding device. -/
theorem snapshot_aggregates_fields_witness :
    sampleHorizonData.battery = sampleSystemInfo.battery ∧
    sampleHorizonData.current = sampleSystemInfo.current ∧
    sampleHorizonData.energy_consumption =
      sampleSystemInfo.energy_consumption ∧
    sampleHorizonData.power = sampleSystemInfo.power ∧
    sampleHorizonData.power_inputs = sampleSystemInfo.inputs ∧
    sampleHorizonData.temperature = sampleSystemInfo.temperature ∧
    sampleHorizonData.uptime = sampleSystemInfo.uptime ∧
    ∃ cards, (sweep_cards okDevice (List.range 4)).1 = Except.ok cards ∧
      sampleHorizonData.cards = buildCardMap cards :=
  snapshot_aggregates_fields okDevice sampleSystemInfo sampleHorizonData
    rfl rfl

/-- C7 counterexample: a cycle whose system-info fetch fails issues no
card-slot call at all, so not every refresh cycle performs one
fetch_card_info call per slot 0..3. -/
theorem refresh_call_trace_cex :
    update_trace errDevice = [ApiCall.system_info] ∧
    update_trace errDevice ≠
      ApiCall.system_info :: (List.range 4).map ApiCall.card_info :=
  ⟨rfl, by decide⟩

/-- C7 amended: every refresh cycle performs exactly one system-info
fetch, followed by one fetch_card_info call per slot over an initial
segment of the slots 0..K-1 in increasing slot order, where K = 4; a
cycle in which every fetch succeeds sweeps exactly the slots 0..3. -/
theorem refresh_call_trace (dev : Device) :
    (∃ slots rest2 : List ℕ,
      update_trace dev =
        ApiCall.system_info :: slots.map ApiCall.card_info ∧
      slots ++ rest2 = List.range 4) ∧
    (fetch_ok (_async_update_data dev) = true →
      update_trace dev =
        ApiCall.system_info :: (List.range 4).map ApiCall.card_info) := by
  cases hsys : get_system_info dev with
  | error e =>
    constructor
    · refine ⟨[], List.range 4, ?_, rfl⟩
      simp [update_trace, _async_update_data_traced, hsys]
    · intro hok
      exfalso
      simp [_async_update_data, _async_update_data_traced, hsys, fetch_ok]
        at hok
  | ok data =>
    obtain ⟨slots, rest2, h1, h2, h3⟩ := sweep_cards_trace dev (List.range 4)
    have htr : update_trace dev =
        ApiCall.system_info :: (sweep_cards dev (List.range 4)).2 := by
      rw [update_trace]
      simp only [_async_update_data_traced, hsys]
      rcases hsw : sweep_cards dev (List.range 4) with ⟨r, t⟩
      cases r <;> rfl
    have hupd : fetch_ok (_async_update_data dev) =
        fetch_ok (sweep_cards dev (List.range 4)).1 := by
      simp only [_async_update_data, _async_update_data_traced, hsys]
      rcases hsw : sweep_cards dev (List.range 4) with ⟨r, t⟩
      cases r <;> rfl
    constructor
    · exact ⟨slots, rest2, by rw [htr, h1], h2⟩
    · intro hok
      rw [hupd] at hok
      have hrest := h3 hok
      subst hrest
      rw [List.append_nil] at h2
      subst h2
      rw [htr, h1]

/-- Witness for C7: the all-success device sweeps exactly slots 0..3
after its one system-info fetch. -/
theorem refresh_call_trace_witness :
    update_trace okDevice =
      ApiCall.system_info :: (List.range 4).map ApiCall.card_info :=
  (refresh_call_trace okDevice).2 rfl

end GreenDrake
